import Mathlib

/-!
Verification development for the strava-db-syncer repository.

The repository has two programs sharing one MongoDB collection of activity
documents:

* `strava_db_sync_mongodb_atlas.py` — a sync loop that refreshes an OAuth
  token, pages through the remote activity list, transforms each record and
  upserts it into the collection keyed by the external `id` field;
* `strava_fast_api.py` — a FastAPI CRUD layer over the same collection.

The embedding below models loosely-typed JSON/BSON values (`BVal`), documents
as ordered key/value lists (`Doc`, mirroring Python dict / BSON document
ordering), the collection as a list of documents in natural (insertion) order
together with an ObjectId counter (`Store`), and each Python function of the
two source files as a Lean function of the same name.  MongoDB's
`update_one({"id": v}, {"$set": s}, upsert=...)`, `find_one`, `insert_one`
and `find_one_and_update` are modelled explicitly, including the unique index
on `id` created by `initialize_db` (a write whose resulting `id` would
duplicate another document's raises a duplicate-key error and leaves the
collection unchanged).
-/

/-- Python `datetime` value as produced by `datetime.strptime`: naive when
`tz = none`, timezone-aware with a fixed UTC offset in microseconds otherwise
(CPython timezone offsets have sub-minute resolution). -/
structure PyDateTime where
  year : Nat
  month : Nat
  day : Nat
  hour : Nat
  minute : Nat
  second : Nat
  tz : Option Int
deriving DecidableEq, Repr

/-- Loosely-typed JSON/BSON value: the payloads the sync script receives from
the remote service and the values stored in the MongoDB collection. -/
inductive BVal where
  | null : BVal
  | bool : Bool → BVal
  | int : Int → BVal
  | num : Rat → BVal
  | str : String → BVal
  | objId : String → BVal
  | dt : PyDateTime → BVal
  | arr : List BVal → BVal
  | doc : List (String × BVal) → BVal
deriving Repr

mutual

/-- Structural boolean equality on `BVal`. -/
def BVal.beq : BVal → BVal → Bool
  | .null, .null => true
  | .bool a, .bool b => a == b
  | .int a, .int b => a == b
  | .num a, .num b => a == b
  | .str a, .str b => a == b
  | .objId a, .objId b => a == b
  | .dt a, .dt b => a == b
  | .arr a, .arr b => BVal.beqArr a b
  | .doc a, .doc b => BVal.beqDoc a b
  | _, _ => false

/-- Structural boolean equality on lists of `BVal`. -/
def BVal.beqArr : List BVal → List BVal → Bool
  | [], [] => true
  | a :: as, b :: bs => BVal.beq a b && BVal.beqArr as bs
  | _, _ => false

/-- Structural boolean equality on key/value lists. -/
def BVal.beqDoc : List (String × BVal) → List (String × BVal) → Bool
  | [], [] => true
  | (k1, v1) :: as, (k2, v2) :: bs => k1 == k2 && BVal.beq v1 v2 && BVal.beqDoc as bs
  | _, _ => false

end

mutual

theorem BVal.beq_iff : ∀ a b : BVal, BVal.beq a b = true ↔ a = b
  | .null, .null => by simp [BVal.beq]
  | .null, .bool b => by simp [BVal.beq]
  | .null, .int b => by simp [BVal.beq]
  | .null, .num b => by simp [BVal.beq]
  | .null, .str b => by simp [BVal.beq]
  | .null, .objId b => by simp [BVal.beq]
  | .null, .dt b => by simp [BVal.beq]
  | .null, .arr b => by simp [BVal.beq]
  | .null, .doc b => by simp [BVal.beq]
  | .bool a, .null => by simp [BVal.beq]
  | .bool a, .bool b => by simp [BVal.beq]
  | .bool a, .int b => by simp [BVal.beq]
  | .bool a, .num b => by simp [BVal.beq]
  | .bool a, .str b => by simp [BVal.beq]
  | .bool a, .objId b => by simp [BVal.beq]
  | .bool a, .dt b => by simp [BVal.beq]
  | .bool a, .arr b => by simp [BVal.beq]
  | .bool a, .doc b => by simp [BVal.beq]
  | .int a, .null => by simp [BVal.beq]
  | .int a, .bool b => by simp [BVal.beq]
  | .int a, .int b => by simp [BVal.beq]
  | .int a, .num b => by simp [BVal.beq]
  | .int a, .str b => by simp [BVal.beq]
  | .int a, .objId b => by simp [BVal.beq]
  | .int a, .dt b => by simp [BVal.beq]
  | .int a, .arr b => by simp [BVal.beq]
  | .int a, .doc b => by simp [BVal.beq]
  | .num a, .null => by simp [BVal.beq]
  | .num a, .bool b => by simp [BVal.beq]
  | .num a, .int b => by simp [BVal.beq]
  | .num a, .num b => by simp [BVal.beq]
  | .num a, .str b => by simp [BVal.beq]
  | .num a, .objId b => by simp [BVal.beq]
  | .num a, .dt b => by simp [BVal.beq]
  | .num a, .arr b => by simp [BVal.beq]
  | .num a, .doc b => by simp [BVal.beq]
  | .str a, .null => by simp [BVal.beq]
  | .str a, .bool b => by simp [BVal.beq]
  | .str a, .int b => by simp [BVal.beq]
  | .str a, .num b => by simp [BVal.beq]
  | .str a, .str b => by simp [BVal.beq]
  | .str a, .objId b => by simp [BVal.beq]
  | .str a, .dt b => by simp [BVal.beq]
  | .str a, .arr b => by simp [BVal.beq]
  | .str a, .doc b => by simp [BVal.beq]
  | .objId a, .null => by simp [BVal.beq]
  | .objId a, .bool b => by simp [BVal.beq]
  | .objId a, .int b => by simp [BVal.beq]
  | .objId a, .num b => by simp [BVal.beq]
  | .objId a, .str b => by simp [BVal.beq]
  | .objId a, .objId b => by simp [BVal.beq]
  | .objId a, .dt b => by simp [BVal.beq]
  | .objId a, .arr b => by simp [BVal.beq]
  | .objId a, .doc b => by simp [BVal.beq]
  | .dt a, .null => by simp [BVal.beq]
  | .dt a, .bool b => by simp [BVal.beq]
  | .dt a, .int b => by simp [BVal.beq]
  | .dt a, .num b => by simp [BVal.beq]
  | .dt a, .str b => by simp [BVal.beq]
  | .dt a, .objId b => by simp [BVal.beq]
  | .dt a, .dt b => by simp [BVal.beq]
  | .dt a, .arr b => by simp [BVal.beq]
  | .dt a, .doc b => by simp [BVal.beq]
  | .arr a, .null => by simp [BVal.beq]
  | .arr a, .bool b => by simp [BVal.beq]
  | .arr a, .int b => by simp [BVal.beq]
  | .arr a, .num b => by simp [BVal.beq]
  | .arr a, .str b => by simp [BVal.beq]
  | .arr a, .objId b => by simp [BVal.beq]
  | .arr a, .dt b => by simp [BVal.beq]
  | .arr a, .arr b => by
      simp only [BVal.beq, BVal.arr.injEq]
      exact BVal.beqArr_iff a b
  | .arr a, .doc b => by simp [BVal.beq]
  | .doc a, .null => by simp [BVal.beq]
  | .doc a, .bool b => by simp [BVal.beq]
  | .doc a, .int b => by simp [BVal.beq]
  | .doc a, .num b => by simp [BVal.beq]
  | .doc a, .str b => by simp [BVal.beq]
  | .doc a, .objId b => by simp [BVal.beq]
  | .doc a, .dt b => by simp [BVal.beq]
  | .doc a, .arr b => by simp [BVal.beq]
  | .doc a, .doc b => by
      simp only [BVal.beq, BVal.doc.injEq]
      exact BVal.beqDoc_iff a b

theorem BVal.beqArr_iff : ∀ as bs : List BVal, BVal.beqArr as bs = true ↔ as = bs
  | [], [] => by simp [BVal.beqArr]
  | a :: as, b :: bs => by
      simp only [BVal.beqArr, Bool.and_eq_true, List.cons.injEq]
      exact and_congr (BVal.beq_iff a b) (BVal.beqArr_iff as bs)
  | [], _ :: _ => by simp [BVal.beqArr]
  | _ :: _, [] => by simp [BVal.beqArr]

theorem BVal.beqDoc_iff : ∀ as bs : List (String × BVal), BVal.beqDoc as bs = true ↔ as = bs
  | [], [] => by simp [BVal.beqDoc]
  | (k1, v1) :: as, (k2, v2) :: bs => by
      simp only [BVal.beqDoc, Bool.and_eq_true, List.cons.injEq, Prod.mk.injEq]
      rw [BVal.beqDoc_iff as bs]
      constructor
      · rintro ⟨⟨h1, h2⟩, h3⟩
        exact ⟨⟨by simpa using h1, (BVal.beq_iff v1 v2).mp h2⟩, h3⟩
      · rintro ⟨⟨h1, h2⟩, h3⟩
        exact ⟨⟨by simp [h1], (BVal.beq_iff v1 v2).mpr h2⟩, h3⟩
  | [], _ :: _ => by simp [BVal.beqDoc]
  | _ :: _, [] => by simp [BVal.beqDoc]

end

instance : DecidableEq BVal := fun a b => decidable_of_iff (BVal.beq a b = true) (BVal.beq_iff a b)

/-- JSON/BSON document: ordered list of field name / value pairs (a Python
dict, whose keys are unique and insertion-ordered). -/
abbrev Doc := List (String × BVal)

/-- Lookup of a field in a document (`d[k]` / `d.get(k)` returning the first
entry with that key). -/
def dGet (d : Doc) (k : String) : Option BVal :=
  match d with
  | [] => none
  | (k1, v) :: rest => if k1 = k then some v else dGet rest k

/-- Python `k in d` for a document. -/
def dHasKey (d : Doc) (k : String) : Bool := (dGet d k).isSome

/-- Assignment of one field (`d[k] = v`): replaces the first entry with that
key in place, or appends a new entry when the key is absent. -/
def setKey (d : Doc) (k : String) (v : BVal) : Doc :=
  match d with
  | [] => [(k, v)]
  | (k1, v1) :: rest => if k1 = k then (k, v) :: rest else (k1, v1) :: setKey rest k v

/-- Python `d.pop(k, None)`: the document without the field `k`. -/
def popKey (d : Doc) (k : String) : Doc := d.filter (fun e => decide (e.1 ≠ k))

/-- MongoDB `$set` of every field of `s` on the document `d`, in order. -/
def applySet (d : Doc) (s : Doc) : Doc := s.foldl (fun acc e => setKey acc e.1 e.2) d

/-- Keys of a document, in order. -/
def dKeys (d : Doc) : List String := d.map Prod.fst

/-- Greedy parse of up to `max` leading decimal digits (at least one), as
CPython `strptime` numeric directives do. -/
def parseDigitsAux : Nat → List Char → Nat → Nat → Nat × Nat × List Char
  | 0, cs, acc, cnt => (acc, cnt, cs)
  | _ + 1, [], acc, cnt => (acc, cnt, [])
  | m + 1, c :: cs, acc, cnt =>
      if c.isDigit then parseDigitsAux m cs (acc * 10 + (c.toNat - 48)) (cnt + 1)
      else (acc, cnt, c :: cs)

/-- Up to `max` digits, at least one; value and remaining characters. -/
def takeDigits (max : Nat) (cs : List Char) : Option (Nat × List Char) :=
  match parseDigitsAux max cs 0 0 with
  | (v, cnt, rest) => if cnt = 0 then none else some (v, rest)

/-- Exactly two digits, as the `%z` directive requires for hours and minutes. -/
def take2Digits : List Char → Option (Nat × List Char)
  | a :: b :: rest =>
      if a.isDigit && b.isDigit then some ((a.toNat - 48) * 10 + (b.toNat - 48), rest)
      else none
  | _ => none

/-- Exactly four digits, as the `%Y` directive requires (CPython's pattern for
`%Y` is four digits, nothing shorter). -/
def take4Digits : List Char → Option (Nat × List Char)
  | a :: b :: c :: d :: rest =>
      if a.isDigit && b.isDigit && c.isDigit && d.isDigit then
        some ((((a.toNat - 48) * 10 + (b.toNat - 48)) * 10 + (c.toNat - 48)) * 10 +
          (d.toNat - 48), rest)
      else none
  | _ => none

/-- One expected literal character. -/
def expectChar (c : Char) : List Char → Option (List Char)
  | [] => none
  | x :: xs => if x = c then some xs else none

def is_leap_year (y : Nat) : Bool := (y % 4 = 0 && y % 100 ≠ 0) || y % 400 = 0

def days_in_month (y m : Nat) : Nat :=
  if m = 2 then (if is_leap_year y then 29 else 28)
  else if m = 4 ∨ m = 6 ∨ m = 9 ∨ m = 11 then 30
  else 31

/-- Parse of the shared `%Y-%m-%dT%H:%M:%S` prefix of the two strptime formats
used by `save_activities_to_db`, with the range validation `datetime` performs. -/
def parseDateTimeCore (cs : List Char) : Option (PyDateTime × List Char) := do
  let (y, cs) ← take4Digits cs
  let cs ← expectChar '-' cs
  let (mo, cs) ← takeDigits 2 cs
  let cs ← expectChar '-' cs
  let (d, cs) ← takeDigits 2 cs
  let cs ← expectChar 'T' cs
  let (h, cs) ← takeDigits 2 cs
  let cs ← expectChar ':' cs
  let (mi, cs) ← takeDigits 2 cs
  let cs ← expectChar ':' cs
  let (s, cs) ← takeDigits 2 cs
  if 1 ≤ y ∧ y ≤ 9999 ∧ 1 ≤ mo ∧ mo ≤ 12 ∧ 1 ≤ d ∧ d ≤ days_in_month y mo ∧
      h ≤ 23 ∧ mi ≤ 59 ∧ s ≤ 59 then
    some (⟨y, mo, d, h, mi, s, none⟩, cs)
  else none

/-- Python `datetime.strptime(s, "%Y-%m-%dT%H:%M:%SZ")`: a naive (assumed-UTC)
datetime; the literal `Z` suffix must be present and nothing may follow. -/
def strptime_utc (s : String) : Option PyDateTime := do
  let (t, cs) ← parseDateTimeCore s.toList
  let cs ← expectChar 'Z' cs
  if cs.isEmpty then some t else none

/-- Optional fractional-seconds part `.f` (one to six digits) of a `%z`
offset, scaled to microseconds; a dot not followed by a digit is left
unconsumed. -/
def takeFraction : List Char → Nat × List Char
  | '.' :: rest =>
      match parseDigitsAux 6 rest 0 0 with
      | (v, cnt, r) =>
          if cnt = 0 then (0, '.' :: rest)
          else (v * 10 ^ (6 - cnt), r)
  | cs => (0, cs)

/-- The `%z` directive as CPython matches and post-processes it: `Z`, or a
sign, two hour digits, minutes `00`-`59` and optional seconds `00`-`59` (with
an optional fraction of up to six digits), where the colon before minutes and
the colon before seconds must be used consistently, and the resulting offset
must be strictly smaller than 24 hours.  The offset is returned in
microseconds. -/
def parseTzOffset : List Char → Option (Int × List Char)
  | [] => none
  | c :: rest =>
      if c = 'Z' then some (0, rest)
      else if c = '+' ∨ c = '-' then do
        let (hh, r1) ← take2Digits rest
        let (mm, ss, frac, r6) ←
          match r1 with
          | ':' :: r2 => do
              let (mm, r3) ← take2Digits r2
              if mm ≤ 59 then
                match r3 with
                | ':' :: r4 => do
                    let (ss, r5) ← take2Digits r4
                    if ss ≤ 59 then
                      let (frac, r6) := takeFraction r5
                      some (mm, ss, frac, r6)
                    else none
                | r3 => some (mm, 0, 0, r3)
              else none
          | r1 => do
              let (mm, r3) ← take2Digits r1
              if mm ≤ 59 then
                match take2Digits r3 with
                | some (ss, r5) =>
                    if ss ≤ 59 then
                      let (frac, r6) := takeFraction r5
                      some (mm, ss, frac, r6)
                    else none
                | none => some (mm, 0, 0, r3)
              else none
        let total : Int := ((hh * 3600 + mm * 60 + ss : Nat) : Int) * 1000000 + (frac : Int)
        if total < 86400000000 then
          some (if c = '-' then -total else total, r6)
        else none
      else none

/-- Python `datetime.strptime(s, "%Y-%m-%dT%H:%M:%S%z")`: an aware datetime
carrying its own UTC offset. -/
def strptime_tz (s : String) : Option PyDateTime := do
  let (t, cs) ← parseDateTimeCore s.toList
  let (off, cs) ← parseTzOffset cs
  if cs.isEmpty then some { t with tz := some off } else none

/-- Decimal rendering of `n` left-padded with zeros to `width`. -/
def padNum (width n : Nat) : String :=
  let s := toString n
  String.mk (List.replicate (width - s.length) '0') ++ s

/-- Python `datetime.isoformat()`: ISO-8601 string, with a `+HH:MM`-style
suffix exactly when the datetime is timezone-aware. -/
def PyDateTime.isoformat (t : PyDateTime) : String :=
  padNum 4 t.year ++ "-" ++ padNum 2 t.month ++ "-" ++ padNum 2 t.day ++ "T" ++
  padNum 2 t.hour ++ ":" ++ padNum 2 t.minute ++ ":" ++ padNum 2 t.second ++
  (match t.tz with
   | none => ""
   | some off =>
       let us := off.natAbs
       let ss := us % 60000000 / 1000000
       let micro := us % 1000000
       (if off < 0 then "-" else "+") ++
       padNum 2 (us / 3600000000) ++ ":" ++ padNum 2 (us % 3600000000 / 60000000) ++
       (if ss ≠ 0 ∨ micro ≠ 0 then
          ":" ++ padNum 2 ss ++ (if micro ≠ 0 then "." ++ padNum 6 micro else "")
        else ""))

/-- Modelled from the spec: the third-party `polyline` library the sync script
imports is not part of this repository.  Section 4.1 of the spec describes its
`decode` as the standard encoded-polyline algorithm (base-64-like delta
encoding of scaled coordinate differences, precision factor 1e5).  This
decodes the chunked varint stream into the list of signed deltas. -/
def polyline_decode_nums : List Char → Nat → Int → List Int
  | [], _, _ => []
  | c :: cs, shift, acc =>
      let b : Int := (c.toNat : Int) - 63
      let acc2 := acc + (b % 32) * ((2 : Int) ^ shift)
      if b < 32 then
        let delta := if acc2 % 2 = 1 then -(acc2 / 2) - 1 else acc2 / 2
        delta :: polyline_decode_nums cs 0 0
      else polyline_decode_nums cs (shift + 5) acc2

/-- Running sums of alternating latitude/longitude deltas, scaled by 1e5. -/
def polyline_accum : List Int → Int → Int → List (Rat × Rat)
  | dlat :: dlng :: rest, lat, lng =>
      let lat2 := lat + dlat
      let lng2 := lng + dlng
      ((lat2 : Rat) / 100000, (lng2 : Rat) / 100000) :: polyline_accum rest lat2 lng2
  | _, _, _ => []

/-- Modelled from the spec: `polyline.decode` of the third-party library (see
`polyline_decode_nums`), producing ordered (latitude, longitude) pairs. -/
def polyline_decode (s : String) : List (Rat × Rat) :=
  polyline_accum (polyline_decode_nums s.toList 0 0) 0 0

/-- Python truth value of a JSON payload, as in `if polyline_data:`. -/
def truthy : BVal → Bool
  | .null => false
  | .bool b => b
  | .int n => decide (n ≠ 0)
  | .num q => decide (q ≠ 0)
  | .str s => decide (s ≠ "")
  | .objId _ => true
  | .dt _ => true
  | .arr l => decide (l ≠ [])
  | .doc d => decide (d ≠ [])

/-- Python `str(...)` restricted to the values it is applied to in the API
code (the `_id` ObjectId of a stored document). -/
def strPy : BVal → String
  | .objId s => s
  | .str s => s
  | .int n => toString n
  | .null => "None"
  | .bool b => if b then "True" else "False"
  | _ => ""

/-- Exceptions the modelled Python code can raise. -/
inductive PyErr where
  | keyError (k : String)
  | valueError
  | typeError
  | attributeError
deriving DecidableEq, Repr

/-- Storage-layer error: violation of the unique index on `id` that
`initialize_db` creates with `db.activities.create_index("id", unique=True)`. -/
inductive MongoErr where
  | duplicateKey
deriving DecidableEq, Repr

/-- The `strava_db.activities` collection: documents in natural (insertion)
order, plus the counter from which fresh `_id` ObjectIds are minted. -/
structure Store where
  docs : List Doc
  nextOid : Nat
deriving Repr

/-- Mongo equality filter `{"id": v}` applied to a document. -/
def matches_id (v : BVal) (d : Doc) : Bool := decide (dGet d "id" = some v)

/-- Whether two documents carry the same (present) `id` field value. -/
def sameId (a b : Doc) : Bool :=
  match dGet a "id", dGet b "id" with
  | some x, some y => decide (x = y)
  | _, _ => false

/-- Uniqueness of the `id` field across a document list: the invariant the
unique index maintains. -/
def uniqIds : List Doc → Bool
  | [] => true
  | d :: ds => ds.all (fun x => !sameId d x) && uniqIds ds

/-- First document matching a predicate, with the documents before and after
it in natural order. -/
def splitAtFirst (p : Doc → Bool) : List Doc → Option (List Doc × Doc × List Doc)
  | [] => none
  | d :: ds =>
      if p d then some ([], d, ds)
      else (splitAtFirst p ds).map (fun t => (d :: t.1, t.2.1, t.2.2))

/-- Mongo `collection.find_one({"id": v})`. -/
def find_one_by_id (st : Store) (v : BVal) : Option Doc :=
  st.docs.find? (matches_id v)

/-- Mongo `collection.insert_one(d)` for a document without an `_id` field: a
fresh ObjectId is assigned and the document appended in natural order. -/
def insert_one (st : Store) (d : Doc) : Store :=
  { docs := st.docs ++ [("_id", BVal.objId (padNum 24 st.nextOid)) :: d],
    nextOid := st.nextOid + 1 }

/-- Mongo `collection.update_one({"id": v}, {"$set": s}, upsert=up)` under the
unique index on `id`: the first matching document has the fields of `s` set on
it; with no match and `upsert=True` a new document built from the filter and
`s` is inserted.  A write whose resulting `id` would equal another document's
raises a duplicate-key error and leaves the collection unchanged. -/
def update_one_set_by_id (st : Store) (v : BVal) (s : Doc) (upsert : Bool) :
    Except MongoErr Store :=
  match splitAtFirst (matches_id v) st.docs with
  | some (pre, d, suf) =>
      let merged := applySet d s
      if (pre ++ suf).any (sameId merged) then .error .duplicateKey
      else .ok { st with docs := pre ++ merged :: suf }
  | none =>
      if upsert then
        let newDoc := ("_id", BVal.objId (padNum 24 st.nextOid)) :: applySet [("id", v)] s
        if st.docs.any (sameId newDoc) then .error .duplicateKey
        else .ok { docs := st.docs ++ [newDoc], nextOid := st.nextOid + 1 }
      else .ok st

/-- Mongo `collection.find_one_and_update({"id": v}, {"$set": s},
return_document=True)` under the unique index on `id`: returns the updated
document, or `none` when no document matches. -/
def find_one_and_update_set (st : Store) (v : BVal) (s : Doc) :
    Except MongoErr (Option Doc × Store) :=
  match splitAtFirst (matches_id v) st.docs with
  | some (pre, d, suf) =>
      let merged := applySet d s
      if (pre ++ suf).any (sameId merged) then .error .duplicateKey
      else .ok (some merged, { st with docs := pre ++ merged :: suf })
  | none => .ok (none, st)

/-- Python `d.get(k)` defaulted to `None` for a document field, as used for
every optional field of the activity record. -/
def pyGetNull (d : Doc) (k : String) : BVal := (dGet d k).getD .null

/-- Python `d[k]`: the field's value, or a `KeyError` for a missing key. -/
def pyIndex (d : Doc) (k : String) : Except PyErr BVal :=
  match dGet d k with
  | some v => .ok v
  | none => .error (.keyError k)

/-- The source line `map_data = activity.get('map', {})` followed by the use
of `map_data` as a dict: a present non-dict value (including `None`) makes the
later `map_data.get(...)` raise `AttributeError`. -/
def get_map_data (activity : Doc) : Except PyErr Doc :=
  match dGet activity "map" with
  | none => .ok []
  | some (.doc m) => .ok m
  | some _ => .error .attributeError

/-- The source line `decoded_polyline = polyline.decode(polyline_data) if
polyline_data else None`, parameterized by the decoder: decoding is attempted
exactly when `polyline_data` is truthy, and `polyline.decode` accepts only a
string. -/
def decode_polyline_field (dec : String → List (Rat × Rat)) (polyline_data : BVal) :
    Except PyErr BVal :=
  if truthy polyline_data then
    match polyline_data with
    | .str s => .ok (.arr ((dec s).map (fun p => .arr [.num p.1, .num p.2])))
    | _ => .error .typeError
  else .ok .null

/-- The source expression `datetime.strptime(activity['start_date'],
"%Y-%m-%dT%H:%M:%SZ")` applied to an already-fetched value. -/
def parse_start_date (v : BVal) : Except PyErr PyDateTime :=
  match v with
  | .str s =>
      match strptime_utc s with
      | some t => .ok t
      | none => .error .valueError
  | _ => .error .typeError

/-- The source expression `datetime.strptime(activity['start_date_local'],
"%Y-%m-%dT%H:%M:%S%z")` applied to an already-fetched value. -/
def parse_start_date_local (v : BVal) : Except PyErr PyDateTime :=
  match v with
  | .str s =>
      match strptime_tz s with
      | some t => .ok t
      | none => .error .valueError
  | _ => .error .typeError

/-- The per-record transformation inside `save_activities_to_db`'s `for`
loop, parameterized by the polyline decoder so that theorems can state when
the decoder is (not) consulted.  It mirrors the source statement by
statement: the map/polyline extraction, then the `activity_document` dict
literal with its required indexing (`activity['id']`, `['name']`, `['type']`,
the two `strptime` calls) and its `.get` defaults for every optional field. -/
def build_activity_document_with (dec : String → List (Rat × Rat)) (activity : Doc) :
    Except PyErr Doc := do
  let map_data : Doc ← get_map_data activity
  let polyline_data : BVal := pyGetNull map_data "summary_polyline"
  let decoded_polyline : BVal ← decode_polyline_field dec polyline_data
  let idVal ← pyIndex activity "id"
  let nameVal ← pyIndex activity "name"
  let typeVal ← pyIndex activity "type"
  let sdRaw ← pyIndex activity "start_date"
  let sd ← parse_start_date sdRaw
  let sdlRaw ← pyIndex activity "start_date_local"
  let sdl ← parse_start_date_local sdlRaw
  .ok [("id", idVal),
       ("name", nameVal),
       ("type", typeVal),
       ("distance", pyGetNull activity "distance"),
       ("moving_time", pyGetNull activity "moving_time"),
       ("elapsed_time", pyGetNull activity "elapsed_time"),
       ("total_elevation_gain", pyGetNull activity "total_elevation_gain"),
       ("sport_type", pyGetNull activity "sport_type"),
       ("start_date", .dt sd),
       ("start_date_local", .dt sdl),
       ("timezone", pyGetNull activity "timezone"),
       ("map", .doc map_data),
       ("polyline", polyline_data),
       ("decoded_polyline", decoded_polyline),
       ("gear", pyGetNull activity "gear"),
       ("average_speed", pyGetNull activity "average_speed"),
       ("max_speed", pyGetNull activity "max_speed"),
       ("average_cadence", pyGetNull activity "average_cadence"),
       ("average_heartrate", pyGetNull activity "average_heartrate"),
       ("max_heartrate", pyGetNull activity "max_heartrate"),
       ("calories", pyGetNull activity "calories"),
       ("raw_data", .doc activity)]

/-- The per-record transformation with the decoder the source actually uses. -/
def build_activity_document (activity : Doc) : Except PyErr Doc :=
  build_activity_document_with polyline_decode activity

/-- Abort of the whole save loop: the `except` handler's own
`logging.error(f"Error saving activity {activity['id']}: {e}")` raises a
`KeyError` when the record has no `id` field, and nothing catches it. -/
inductive SyncAbort where
  | handlerKeyError
deriving DecidableEq, Repr

/-- Source `save_activities_to_db(activities)`: for each record, build the
activity document and `update_one({"id": activity['id']}, {"$set": doc},
upsert=True)`; any exception in the `try` body is caught by the handler, which
itself evaluates `activity['id']` — so a record with an `id` field is logged
and skipped, while a record without one aborts the loop. -/
def save_activities_to_db (activities : List Doc) (st : Store) : Except SyncAbort Store :=
  match activities with
  | [] => .ok st
  | activity :: rest =>
      match build_activity_document activity with
      | .ok doc =>
          match update_one_set_by_id st (pyGetNull activity "id") doc true with
          | .ok st2 => save_activities_to_db rest st2
          | .error _ =>
              match dGet activity "id" with
              | some _ => save_activities_to_db rest st
              | none => .error .handlerKeyError
      | .error _ =>
          match dGet activity "id" with
          | some _ => save_activities_to_db rest st
          | none => .error .handlerKeyError

/-- Response of the Strava OAuth token endpoint as seen by
`refresh_access_token`: HTTP status and parsed JSON body. -/
structure TokenResponse where
  status_code : Nat
  body : Doc
deriving Repr

/-- Outcome of `refresh_access_token()`: the global `STRAVA_ACCESS_TOKEN` is
replaced, or the process terminates via `exit()`, or an uncaught Python
exception propagates. -/
inductive RefreshOutcome where
  | ok (token : BVal)
  | exitProcess
  | pyError (e : PyErr)
deriving Repr

/-- Source `refresh_access_token()`: on HTTP 200 assign
`token_data["access_token"]` to the global token; otherwise log and `exit()`. -/
def refresh_access_token (response : TokenResponse) : RefreshOutcome :=
  if response.status_code = 200 then
    match dGet response.body "access_token" with
    | some v => .ok v
    | none => .pyError (.keyError "access_token")
  else .exitProcess

/-- Response of one page of the Strava activity-list endpoint: HTTP status
and, on success, the page's activity records. -/
structure ActivitiesResponse where
  status_code : Nat
  body : List Doc
deriving Repr

/-- Source `fetch_activities(page, per_page)`: the page's records on HTTP 200,
an empty list on any other status (logged, not raised). -/
def fetch_activities (remote : Nat → ActivitiesResponse) (page : Nat) : List Doc :=
  let response := remote page
  if response.status_code = 200 then response.body else []

/-- The `while True` pagination loop of `sync_activities()`: starting from
`page`, fetch each page, stop at the first empty result, and otherwise hand
the page's records to `save_activities_to_db` and increment the page number.
The trace records each (page, records) pair passed to the save step; `fuel`
bounds the unrolling of the source's unbounded loop. -/
def sync_activities_pages (remote : Nat → ActivitiesResponse) :
    Nat → Nat → List (Nat × List Doc)
  | 0, _ => []
  | fuel + 1, page =>
      let activities := fetch_activities remote page
      if activities.isEmpty then []
      else (page, activities) :: sync_activities_pages remote fuel (page + 1)

/-- Source `sync_activities()` pagination, which always starts at page 1. -/
def sync_activities (remote : Nat → ActivitiesResponse) (fuel : Nat) :
    List (Nat × List Doc) :=
  sync_activities_pages remote fuel 1

/-- Pydantic `Activity` model of `strava_fast_api.py`: required descriptive
and temporal fields, optional geometry, metrics and photos. -/
structure Activity where
  id : Int
  name : String
  type : String
  distance : Rat
  moving_time : Int
  elapsed_time : Int
  total_elevation_gain : Rat
  sport_type : String
  start_date : String
  start_date_local : String
  timezone : String
  map : Option Doc := none
  polyline : Option String := none
  decoded_polyline : Option (List (List Rat)) := none
  average_speed : Option Rat := none
  max_speed : Option Rat := none
  average_heartrate : Option Rat := none
  max_heartrate : Option Rat := none
  calories : Option Rat := none
  photos : Option (List String) := none
deriving Repr

/-- Optional value to JSON: `None` becomes `null`. -/
def optBVal {α : Type} (f : α → BVal) : Option α → BVal
  | none => .null
  | some a => f a

/-- Pydantic `activity.dict()`: every declared field, in declaration order,
with `None` for absent optional fields. -/
def Activity.dict (a : Activity) : Doc :=
  [("id", .int a.id),
   ("name", .str a.name),
   ("type", .str a.type),
   ("distance", .num a.distance),
   ("moving_time", .int a.moving_time),
   ("elapsed_time", .int a.elapsed_time),
   ("total_elevation_gain", .num a.total_elevation_gain),
   ("sport_type", .str a.sport_type),
   ("start_date", .str a.start_date),
   ("start_date_local", .str a.start_date_local),
   ("timezone", .str a.timezone),
   ("map", optBVal BVal.doc a.map),
   ("polyline", optBVal BVal.str a.polyline),
   ("decoded_polyline",
     optBVal (fun l => .arr (l.map (fun p => .arr (p.map BVal.num)))) a.decoded_polyline),
   ("average_speed", optBVal BVal.num a.average_speed),
   ("max_speed", optBVal BVal.num a.max_speed),
   ("average_heartrate", optBVal BVal.num a.average_heartrate),
   ("max_heartrate", optBVal BVal.num a.max_heartrate),
   ("calories", optBVal BVal.num a.calories),
   ("photos", optBVal (fun l => .arr (l.map BVal.str)) a.photos)]

/-- Result of a FastAPI handler: a value, or an `HTTPException` with its
status code and detail message. -/
inductive ApiResult (α : Type) where
  | ok (a : α)
  | httpError (status : Nat) (detail : String)
deriving Repr

/-- Source `create_activity` (`POST /activities`): 400 when
`find_one({"id": activity.id})` finds an existing document, otherwise
`insert_one(activity.dict())`; returns the created activity and resulting
collection state. -/
def create_activity (st : Store) (activity : Activity) : ApiResult Activity × Store :=
  match find_one_by_id st (.int activity.id) with
  | some _ => (.httpError 400 "Activity with this ID already exists", st)
  | none => (.ok activity, insert_one st activity.dict)

/-- Source `update_activity` (`PUT /activities/{activity_id}`):
`find_one_and_update({"id": activity_id}, {"$set": activity.dict()},
return_document=True)`; 404 when nothing matched; a duplicate-key error from
the unique index propagates out of the handler (a 500-equivalent), leaving the
collection unchanged. -/
def update_activity (st : Store) (activity_id : Int) (activity : Activity) :
    ApiResult Doc × Store :=
  match find_one_and_update_set st (.int activity_id) activity.dict with
  | .error _ => (.httpError 500 "DuplicateKeyError", st)
  | .ok (none, st2) => (.httpError 404 "Activity not found", st2)
  | .ok (some result, st2) =>
      (.ok (setKey result "_id" (.str (strPy (pyGetNull result "_id")))), st2)

/-- The per-document response shaping inside `get_activities`'s `for` loop:
stringify `_id`, render stored datetimes as ISO-8601, and pop
`decoded_polyline` unless `include_polyline` was requested. -/
def shape_activity (include_polyline : Bool) (activity : Doc) : Doc :=
  let a := setKey activity "_id" (.str (strPy (pyGetNull activity "_id")))
  let a := match dGet a "start_date" with
    | some (.dt t) => setKey a "start_date" (.str t.isoformat)
    | _ => a
  let a := match dGet a "start_date_local" with
    | some (.dt t) => setKey a "start_date_local" (.str t.isoformat)
    | _ => a
  if include_polyline then a else popKey a "decoded_polyline"

/-- Source `get_activities` (`GET /activities`): `collection.find()` in
natural order, `.skip(offset)`, `.limit(limit)` when a limit was given, then
the per-document shaping. -/
def get_activities (st : Store) (limit : Option Nat) (offset : Nat)
    (include_polyline : Bool) : List Doc :=
  let activities :=
    match limit with
    | none => (st.docs).drop offset
    | some l => ((st.docs).drop offset).take l
  activities.map (shape_activity include_polyline)

theorem dGet_setKey_self (d : Doc) (k : String) (v : BVal) :
    dGet (setKey d k v) k = some v := by
  induction d with
  | nil => simp [setKey, dGet]
  | cons e rest ih =>
      obtain ⟨k1, v1⟩ := e
      by_cases h : k1 = k <;> simp [setKey, dGet, h, ih]

theorem dGet_setKey_ne (d : Doc) (k k2 : String) (v : BVal) (h : k2 ≠ k) :
    dGet (setKey d k v) k2 = dGet d k2 := by
  induction d with
  | nil => simp [setKey, dGet, Ne.symm h]
  | cons e rest ih =>
      obtain ⟨k1, v1⟩ := e
      by_cases h1 : k1 = k
      · subst h1
        simp [setKey, dGet, Ne.symm h]
      · by_cases h2 : k1 = k2 <;> simp [setKey, dGet, h, h1, h2, ih]

theorem dGet_append (a b : Doc) (k : String) :
    dGet (a ++ b) k = Option.or (dGet a k) (dGet b k) := by
  induction a with
  | nil => simp [dGet]
  | cons e rest ih =>
      obtain ⟨k1, v1⟩ := e
      by_cases h : k1 = k <;> simp [dGet, h, ih]

theorem dGet_eq_none_iff (d : Doc) (k : String) :
    dGet d k = none ↔ k ∉ dKeys d := by
  induction d with
  | nil => simp [dGet, dKeys]
  | cons e rest ih =>
      obtain ⟨k1, v1⟩ := e
      simp only [dGet, dKeys, List.map_cons, List.mem_cons]
      by_cases h : k1 = k
      · subst h
        simp
      · rw [if_neg h, ih]
        simp only [not_or]
        constructor
        · intro hr
          exact ⟨fun he => h he.symm, hr⟩
        · intro hr
          exact hr.2

theorem applySet_append (d : Doc) (s : Doc) (e : String × BVal) :
    applySet d (s ++ [e]) = setKey (applySet d s) e.1 e.2 := by
  simp [applySet, List.foldl_append]

theorem dGet_applySet (d s : Doc) (k : String) :
    dGet (applySet d s) k = Option.or (dGet s.reverse k) (dGet d k) := by
  induction s using List.reverseRecOn with
  | nil => simp [applySet, dGet]
  | append_singleton s e ih =>
      obtain ⟨k1, v1⟩ := e
      by_cases h : k1 = k
      · subst h
        simp [applySet_append, dGet_setKey_self, dGet]
      · simp [applySet_append, dGet_setKey_ne _ _ _ _ (Ne.symm h), ih, dGet, h]

theorem dKeys_reverse (s : Doc) : dKeys s.reverse = (dKeys s).reverse := by
  simp [dKeys]

theorem dGet_applySet_of_absent (d s : Doc) (k : String) (h : dGet s k = none) :
    dGet (applySet d s) k = dGet d k := by
  rw [dGet_applySet]
  have h2 : dGet s.reverse k = none := by
    rw [dGet_eq_none_iff] at h ⊢
    simpa [dKeys_reverse] using h
  simp [h2]

theorem dGet_reverse_of_nodup (s : Doc) (k : String) (h : (dKeys s).Nodup) :
    dGet s.reverse k = dGet s k := by
  induction s with
  | nil => simp
  | cons e rest ih =>
      obtain ⟨k1, v1⟩ := e
      rw [dKeys, List.map_cons, List.nodup_cons] at h
      obtain ⟨h1, h2⟩ := h
      by_cases hk : k1 = k
      · subst hk
        have hr : dGet rest.reverse k1 = none := by
          rw [dGet_eq_none_iff, dKeys_reverse, List.mem_reverse]
          exact h1
        simp [List.reverse_cons, dGet_append, hr, dGet]
      · rw [List.reverse_cons, dGet_append, ih h2]
        show Option.or (dGet rest k) (dGet [(k1, v1)] k) = dGet ((k1, v1) :: rest) k
        rw [show dGet [(k1, v1)] k = none by simp [dGet, hk]]
        show Option.or (dGet rest k) none = dGet ((k1, v1) :: rest) k
        rw [show dGet ((k1, v1) :: rest) k = dGet rest k by simp [dGet, hk]]
        cases dGet rest k <;> rfl

theorem dGet_applySet_of_mem (d s : Doc) (k : String) (v : BVal)
    (hnd : (dKeys s).Nodup) (h : dGet s k = some v) :
    dGet (applySet d s) k = some v := by
  rw [dGet_applySet, dGet_reverse_of_nodup s k hnd, h]
  rfl

theorem sameId_symm (a b : Doc) : sameId a b = sameId b a := by
  unfold sameId
  cases dGet a "id" <;> cases dGet b "id" <;> simp [eq_comm]

theorem uniqIds_iff_pairwise (l : List Doc) :
    uniqIds l = true ↔ l.Pairwise (fun a b => sameId a b = false) := by
  induction l with
  | nil => simp [uniqIds]
  | cons d ds ih =>
      simp [uniqIds, List.pairwise_cons, ih, List.all_eq_true]

theorem splitAtFirst_eq_some (p : Doc → Bool) :
    ∀ l pre d suf, splitAtFirst p l = some (pre, d, suf) →
      l = pre ++ d :: suf ∧ p d = true ∧ ∀ x ∈ pre, p x = false := by
  intro l
  induction l with
  | nil => intro pre d suf h; simp [splitAtFirst] at h
  | cons a as ih =>
      intro pre d suf h
      by_cases hp : p a
      · simp [splitAtFirst, hp] at h
        obtain ⟨h1, h2, h3⟩ := h
        subst h1; subst h2; subst h3
        exact ⟨rfl, hp, by simp⟩
      · have step : splitAtFirst p (a :: as) =
            (splitAtFirst p as).map (fun t => (a :: t.1, t.2.1, t.2.2)) := by
          simp only [splitAtFirst]
          rw [if_neg (by simp [hp])]
        rw [step] at h
        cases hs : splitAtFirst p as with
        | none => rw [hs] at h; simp at h
        | some t =>
            obtain ⟨pre2, d2, suf2⟩ := t
            rw [hs] at h
            simp only [Option.map_some', Option.some.injEq, Prod.mk.injEq] at h
            obtain ⟨h1, h2, h3⟩ := h
            subst h1; subst h2; subst h3
            obtain ⟨hl, hpd, hpre⟩ := ih pre2 d2 suf2 hs
            refine ⟨by simp [hl], hpd, ?_⟩
            intro x hx
            rcases List.mem_cons.mp hx with hx | hx
            · subst hx; simpa using hp
            · exact hpre x hx

theorem splitAtFirst_eq_none (p : Doc → Bool) :
    ∀ l, splitAtFirst p l = none ↔ ∀ x ∈ l, p x = false := by
  intro l
  induction l with
  | nil => simp [splitAtFirst]
  | cons a as ih =>
      by_cases hp : p a
      · rw [splitAtFirst, if_pos hp]
        constructor
        · intro h; exact absurd h (by simp)
        · intro h
          exact absurd (h a (by simp)) (by simp [hp])
      · rw [splitAtFirst, if_neg (by simp [hp]), Option.map_eq_none', ih]
        constructor
        · intro h x hx
          rcases List.mem_cons.mp hx with rfl | hx
          · simpa using hp
          · exact h x hx
        · intro h x hx
          exact h x (by simp [hx])

theorem splitAtFirst_construct (p : Doc → Bool) :
    ∀ pre d suf, (∀ x ∈ pre, p x = false) → p d = true →
      splitAtFirst p (pre ++ d :: suf) = some (pre, d, suf) := by
  intro pre
  induction pre with
  | nil => intro d suf _ hd; simp [splitAtFirst, hd]
  | cons a as ih =>
      intro d suf hpre hd
      have ha : p a = false := hpre a (by simp)
      have step : splitAtFirst p ((a :: as) ++ d :: suf) =
          (splitAtFirst p (as ++ d :: suf)).map (fun t => (a :: t.1, t.2.1, t.2.2)) := by
        simp only [List.cons_append, splitAtFirst]
        rw [if_neg (by simp [ha])]
        rfl
      rw [step, ih d suf (fun x hx => hpre x (List.mem_cons_of_mem a hx)) hd]
      rfl

theorem uniq_replace (pre suf : List Doc) (d m : Doc)
    (h : uniqIds (pre ++ d :: suf) = true)
    (hm : ∀ x ∈ pre ++ suf, sameId m x = false) :
    uniqIds (pre ++ m :: suf) = true := by
  rw [uniqIds_iff_pairwise] at h ⊢
  rw [List.pairwise_append] at h ⊢
  obtain ⟨h1, h2, h3⟩ := h
  rw [List.pairwise_cons] at h2
  refine ⟨h1, ?_, ?_⟩
  · rw [List.pairwise_cons]
    refine ⟨fun b hb => hm b (by simp [hb]), h2.2⟩
  · intro a ha b hb
    rcases List.mem_cons.mp hb with hb | hb
    · subst hb
      rw [sameId_symm]
      exact hm a (by simp [ha])
    · exact h3 a ha b (by simp [hb])

theorem uniq_snoc (docs : List Doc) (nd : Doc)
    (h : uniqIds docs = true) (hm : ∀ x ∈ docs, sameId nd x = false) :
    uniqIds (docs ++ [nd]) = true := by
  rw [uniqIds_iff_pairwise] at h ⊢
  rw [List.pairwise_append]
  refine ⟨h, by simp, ?_⟩
  intro a ha b hb
  simp only [List.mem_singleton] at hb
  subst hb
  rw [sameId_symm]
  exact hm a ha

/-- Claim C6: the token refresh operation, on a success response from the
token endpoint, replaces the in-memory access token with the returned one; on
any non-success response it logs the failure and terminates the process — it
never retries, never continues with the old token, and never raises an error
that a caller could handle. -/
theorem C6_refresh_token (resp : TokenResponse) :
    (∀ v : BVal, resp.status_code = 200 → dGet resp.body "access_token" = some v →
      refresh_access_token resp = .ok v) ∧
    (resp.status_code ≠ 200 → refresh_access_token resp = .exitProcess) := by
  constructor
  · intro v h200 hv
    simp [refresh_access_token, h200, hv]
  · intro h
    simp [refresh_access_token, h]

/-- Witness for C6 at concrete responses: a 200 response with a token, and a
401 response. -/
theorem C6_refresh_token_witness :
    refresh_access_token ⟨200, [("access_token", .str "tok")]⟩ = .ok (.str "tok") ∧
    refresh_access_token ⟨401, [("message", .str "Bad Request")]⟩ = .exitProcess :=
  ⟨(C6_refresh_token ⟨200, [("access_token", .str "tok")]⟩).1 (.str "tok") rfl (by decide),
   (C6_refresh_token ⟨401, [("message", .str "Bad Request")]⟩).2 (by decide)⟩

/-- Claim C7: for every collection state and every activity whose id equals
the id of a stored document, the API create operation fails with the 400
conflict response, and the collection — in particular the pre-existing
document for that id — is left unmodified. -/
theorem C7_create_conflict (st : Store) (a : Activity) (d : Doc)
    (h : find_one_by_id st (.int a.id) = some d) :
    (create_activity st a).1 = .httpError 400 "Activity with this ID already exists" ∧
    (create_activity st a).2 = st ∧
    find_one_by_id (create_activity st a).2 (.int a.id) = some d := by
  simp [create_activity, h]

/-- Store with one stored activity document of external id 7. -/
def c7_st : Store := ⟨[[("_id", .objId "a"), ("id", .int 7), ("name", .str "old")]], 1⟩

/-- Activity body re-using external id 7. -/
def c7_a : Activity :=
  { id := 7, name := "new", type := "Run", distance := 1, moving_time := 2,
    elapsed_time := 3, total_elevation_gain := 4, sport_type := "Run",
    start_date := "2024-01-01T10:00:00Z", start_date_local := "2024-01-01T10:00:00Z",
    timezone := "UTC" }

/-- Witness for C7: creating id 7 over `c7_st` yields the 400 conflict and
leaves the store untouched. -/
theorem C7_create_conflict_witness :
    find_one_by_id c7_st (.int 7) = some [("_id", .objId "a"), ("id", .int 7), ("name", .str "old")] ∧
    (create_activity c7_st c7_a).1 = .httpError 400 "Activity with this ID already exists" ∧
    (create_activity c7_st c7_a).2 = c7_st :=
  ⟨by decide,
    (C7_create_conflict c7_st c7_a
      [("_id", .objId "a"), ("id", .int 7), ("name", .str "old")] (by decide)).1,
    (C7_create_conflict c7_st c7_a
      [("_id", .objId "a"), ("id", .int 7), ("name", .str "old")] (by decide)).2.1⟩

theorem sync_pages_trace (remote : Nat → ActivitiesResponse) (k : Nat)
    (hempty : fetch_activities remote k = [])
    (hne : ∀ p, p < k → fetch_activities remote p ≠ []) :
    ∀ fuel a, a ≤ k → k - a < fuel →
      sync_activities_pages remote fuel a =
        (List.range' a (k - a)).map (fun p => (p, fetch_activities remote p)) := by
  intro fuel
  induction fuel with
  | zero => intro a _ h; omega
  | succ fuel ih =>
      intro a hak hfa
      by_cases hk : a = k
      · subst hk
        simp [sync_activities_pages, hempty]
      · have hlt : a < k := lt_of_le_of_ne hak hk
        have hnea : fetch_activities remote a ≠ [] := hne a hlt
        have hisE : (fetch_activities remote a).isEmpty = false := by
          cases hfe : fetch_activities remote a with
          | nil => exact absurd hfe hnea
          | cons x xs => simp [List.isEmpty]
        rw [sync_activities_pages]
        simp only [hisE, Bool.false_eq_true, if_false]
        rw [ih (a + 1) (by omega) (by omega)]
        have hn : k - a = (k - (a + 1)) + 1 := by omega
        rw [hn, List.range'_succ, List.map_cons]

/-- Claim C5: in each sync cycle, pages are fetched starting at page 1 and
incrementing by 1; each non-empty page's records are passed to the save step;
pagination stops at the first empty page; and because `fetch_activities`
returns an empty list on any non-success response, a page-level fetch failure
ends pagination exactly as legitimate end-of-data does. -/
theorem C5_pagination (remote : Nat → ActivitiesResponse) (k fuel : Nat)
    (hk : 1 ≤ k)
    (hempty : fetch_activities remote k = [])
    (hne : ∀ p, p < k → fetch_activities remote p ≠ [])
    (hfuel : k ≤ fuel) :
    sync_activities remote fuel =
      (List.range' 1 (k - 1)).map (fun p => (p, fetch_activities remote p)) ∧
    (∀ (r : Nat → ActivitiesResponse) (p : Nat),
      (r p).status_code ≠ 200 → fetch_activities r p = []) := by
  constructor
  · have := sync_pages_trace remote k hempty hne fuel 1 hk (by omega)
    simpa [sync_activities] using this
  · intro r p h
    simp [fetch_activities, h]

/-- Remote oracle for the C5 witness: pages 1 and 2 succeed with one record
each, page 3 fails with HTTP 500, later pages would succeed non-empty (so the
stop really is the failed page). -/
def c5_remote : Nat → ActivitiesResponse := fun p =>
  if p = 3 then ⟨500, [[("id", .int 99)]]⟩ else ⟨200, [[("id", .int p)]]⟩

/-- Witness for C5: with `c5_remote` the cycle passes exactly pages 1 and 2 to
the save step, and the page-3 HTTP failure ended pagination as end-of-data. -/
theorem C5_pagination_witness :
    sync_activities c5_remote 10 = [(1, [[("id", .int 1)]]), (2, [[("id", .int 2)]])] ∧
    fetch_activities (fun _ => ⟨500, [[("id", .int 99)]]⟩) 1 = [] := by
  have h := C5_pagination c5_remote 3 10 (by omega) (by decide)
    (by
      intro p hp hc
      interval_cases p <;> revert hc <;> decide)
    (by omega)
  refine ⟨?_, h.2 (fun _ => ⟨500, [[("id", .int 99)]]⟩) 1 (by decide)⟩
  rw [h.1]
  decide

/-- Helper: a `$set` write that passed the unique-index check preserves id
uniqueness of the collection. -/
theorem set_write_uniq (st : Store) (v : BVal) (s : Doc) (pre suf : List Doc) (d : Doc)
    (hsplit : splitAtFirst (matches_id v) st.docs = some (pre, d, suf))
    (hcheck : (pre ++ suf).any (sameId (applySet d s)) = false)
    (h : uniqIds st.docs = true) :
    uniqIds (pre ++ applySet d s :: suf) = true := by
  obtain ⟨hl, _, _⟩ := splitAtFirst_eq_some _ _ _ _ _ hsplit
  rw [hl] at h
  apply uniq_replace _ _ _ _ h
  simp only [List.any_eq_false] at hcheck
  intro x hx
  simpa using hcheck x hx

/-- Claim C2: the external identifier is unique across the collection, and
this uniqueness is preserved by every operation that writes to the store
(sync upsert, API create, API update): starting from a state where all ids
are distinct, no operation can produce a state in which two documents share
the same external id. -/
theorem C2_unique_ids (st : Store) (h : uniqIds st.docs = true) :
    (∀ (v : BVal) (s : Doc) (st2 : Store),
      update_one_set_by_id st v s true = .ok st2 → uniqIds st2.docs = true) ∧
    (∀ a : Activity, uniqIds (create_activity st a).2.docs = true) ∧
    (∀ (aid : Int) (a : Activity), uniqIds (update_activity st aid a).2.docs = true) := by
  refine ⟨?_, ?_, ?_⟩
  · intro v s st2 hok
    simp only [update_one_set_by_id] at hok
    split at hok
    · rename_i pre d suf heq
      split at hok
      · exact absurd hok (by simp)
      · rename_i hcheck
        simp only [Except.ok.injEq] at hok
        subst hok
        exact set_write_uniq st v s pre suf d heq (by simpa using hcheck) h
    · rename_i hnone
      rw [if_pos trivial] at hok
      split at hok
      · exact absurd hok (by simp)
      · rename_i hcheck
        simp only [Except.ok.injEq] at hok
        subst hok
        apply uniq_snoc _ _ h
        intro x hx
        have hc := List.any_eq_false.mp (by simpa using hcheck) x hx
        simpa using hc
  · intro a
    unfold create_activity
    cases hf : find_one_by_id st (.int a.id) with
    | some d => simpa using h
    | none =>
        simp only [insert_one]
        apply uniq_snoc _ _ h
        have hall : ∀ x ∈ st.docs, matches_id (.int a.id) x = false := by
          have := List.find?_eq_none.mp hf
          intro x hx
          simpa using this x hx
        intro x hx
        have hm := hall x hx
        simp only [matches_id, decide_eq_false_iff_not] at hm
        simp only [sameId]
        have hid : dGet (("_id", BVal.objId (padNum 24 st.nextOid)) :: a.dict) "id" =
            some (.int a.id) := by
          simp [dGet, Activity.dict]
        rw [hid]
        cases hx2 : dGet x "id" with
        | none => rfl
        | some y =>
            simp only [decide_eq_false_iff_not]
            intro he
            exact hm (by rw [hx2, he])
  · intro aid a
    unfold update_activity
    cases hu : find_one_and_update_set st (.int aid) a.dict with
    | error e => simpa using h
    | ok r =>
        obtain ⟨od, st2⟩ := r
        cases od with
        | none =>
            have : st2 = st := by
              simp only [find_one_and_update_set] at hu
              split at hu
              · split at hu
                · exact absurd hu (by simp)
                · simp at hu
              · simp only [Except.ok.injEq, Prod.mk.injEq] at hu
                exact hu.2.symm
            subst this
            simpa using h
        | some m =>
            simp only [find_one_and_update_set] at hu
            split at hu
            · rename_i pre d suf heq
              split at hu
              · exact absurd hu (by simp)
              · rename_i hcheck
                simp only [Except.ok.injEq, Prod.mk.injEq] at hu
                obtain ⟨hm, hst⟩ := hu
                subst hst
                simpa using set_write_uniq st (.int aid) a.dict pre suf d heq
                  (by simpa using hcheck) h
            · simp at hu

/-- Store for the C2 witness: two documents with distinct external ids. -/
def c2_st : Store :=
  ⟨[[("_id", .objId "a"), ("id", .int 1)], [("_id", .objId "b"), ("id", .int 2)]], 2⟩

/-- Sync-style `$set` document for the C2 witness. -/
def c2_s : Doc := [("id", .int 1), ("name", .str "x")]

/-- Activity with a fresh external id for the C2 witness. -/
def c2_a : Activity :=
  { id := 3, name := "n", type := "Run", distance := 1, moving_time := 2,
    elapsed_time := 3, total_elevation_gain := 4, sport_type := "Run",
    start_date := "2024-01-01T10:00:00Z", start_date_local := "2024-01-01T10:00:00Z",
    timezone := "UTC" }

/-- Result store of the C2 witness sync upsert. -/
def c2_st2 : Store :=
  match update_one_set_by_id c2_st (.int 1) c2_s true with
  | .ok s => s
  | .error _ => ⟨[], 0⟩

/-- Witness for C2 at a concrete two-document store: the sync upsert, the API
create and the API update all preserve id uniqueness. -/
theorem C2_unique_ids_witness :
    uniqIds c2_st.docs = true ∧
    update_one_set_by_id c2_st (.int 1) c2_s true = .ok c2_st2 ∧
    uniqIds c2_st2.docs = true ∧
    uniqIds (create_activity c2_st c2_a).2.docs = true ∧
    uniqIds (update_activity c2_st 1 c2_a).2.docs = true :=
  ⟨rfl, rfl, (C2_unique_ids c2_st rfl).1 (.int 1) c2_s c2_st2 rfl,
   (C2_unique_ids c2_st rfl).2.1 c2_a, (C2_unique_ids c2_st rfl).2.2 1 c2_a⟩

/-- Store for the C1 counterexample: one document with external id 101 that
carries a `photos` field (as an API-created document can). -/
def c1_st : Store :=
  ⟨[[("_id", .objId "a"), ("id", .int 101), ("photos", .arr [.str "p.jpg"])]], 1⟩

/-- Upstream record for the C1 counterexample; its built document has no
`photos` field. -/
def c1_r : Doc :=
  [("id", .int 101), ("name", .str "Run"), ("type", .str "Run"),
   ("start_date", .str "2024-01-01T10:00:00Z"),
   ("start_date_local", .str "2024-01-01T21:00:00+11:00")]

/-- Store after the C1 counterexample sync upsert. -/
def c1_st2 : Store :=
  match save_activities_to_db [c1_r] c1_st with
  | .ok s => s
  | .error _ => ⟨[], 0⟩

/-- The new document the C1 counterexample sync cycle builds. -/
def c1_doc : Doc := (build_activity_document c1_r).toOption.getD []

/-- Store for the C1 API-update counterexample: one document with external id
101 carrying a `gear` field (as every sync-written document does). -/
def c1_gst : Store := ⟨[[("_id", .objId "a"), ("id", .int 101), ("gear", .str "bike1")]], 1⟩

/-- Update body for the C1 API-update counterexample; the pydantic model has
no `gear` field, so `activity.dict()` carries none. -/
def c1_act : Activity :=
  { id := 101, name := "new", type := "Ride", distance := 1, moving_time := 2,
    elapsed_time := 3, total_elevation_gain := 4, sport_type := "Ride",
    start_date := "2024-01-02T10:00:00Z", start_date_local := "2024-01-02T10:00:00Z",
    timezone := "UTC" }

/-- Counterexample to claim C1 as stated: after the sync upsert for id 101 the
stored document still carries the previous version's `photos` value although
the new document has no `photos` field, and after the API update for id 101
the stored document still carries the previous version's `gear` value although
the update body's field set has no `gear` field — both write paths are `$set`
merges, not full replacements. -/
theorem C1_counterexample :
    save_activities_to_db [c1_r] c1_st = .ok c1_st2 ∧
    dHasKey c1_doc "photos" = false ∧
    dGet (c1_st2.docs.headD []) "photos" = some (.arr [.str "p.jpg"]) ∧
    dHasKey c1_act.dict "gear" = false ∧
    dGet ((update_activity c1_gst 101 c1_act).2.docs.headD []) "gear" = some (.str "bike1") := by
  refine ⟨rfl, rfl, ?_, rfl, ?_⟩ <;> decide

/-- Claim C1 amended: both write paths write through Mongo `$set` keyed by the
external id — on the matched stored document every field present in the new
document's field set overwrites the stored value, while a field present only
in the stored document is carried over unchanged (a partial merge, not a full
replacement). -/
theorem C1_amended (st : Store) (v : BVal) (s : Doc) (pre suf : List Doc) (d : Doc)
    (hnd : (dKeys s).Nodup)
    (hsplit : splitAtFirst (matches_id v) st.docs = some (pre, d, suf)) :
    (∀ st2, update_one_set_by_id st v s true = .ok st2 →
      st2.docs = pre ++ applySet d s :: suf) ∧
    (∀ od st2, find_one_and_update_set st v s = .ok (od, st2) →
      od = some (applySet d s) ∧ st2.docs = pre ++ applySet d s :: suf) ∧
    (∀ k v2, dGet s k = some v2 → dGet (applySet d s) k = some v2) ∧
    (∀ k, dGet s k = none → dGet (applySet d s) k = dGet d k) := by
  refine ⟨?_, ?_, ?_, ?_⟩
  · intro st2 hok
    simp only [update_one_set_by_id, hsplit] at hok
    split at hok
    · exact absurd hok (by simp)
    · simp only [Except.ok.injEq] at hok
      subst hok
      rfl
  · intro od st2 hok
    simp only [find_one_and_update_set, hsplit] at hok
    split at hok
    · exact absurd hok (by simp)
    · simp only [Except.ok.injEq, Prod.mk.injEq] at hok
      obtain ⟨h1, h2⟩ := hok
      subst h2
      exact ⟨h1.symm, rfl⟩
  · intro k v2 hk
    exact dGet_applySet_of_mem d s k v2 hnd hk
  · intro k hk
    exact dGet_applySet_of_absent d s k hk

/-- Witness for the amended C1 at the counterexample store: the sync upsert
over `c1_st` stores exactly the `$set` merge, whose `name` field comes from
the new document and whose `photos` field is carried over. -/
theorem C1_amended_witness :
    (dKeys c1_doc).Nodup ∧
    splitAtFirst (matches_id (.int 101)) c1_st.docs =
      some ([], [("_id", .objId "a"), ("id", .int 101), ("photos", .arr [.str "p.jpg"])], []) ∧
    update_one_set_by_id c1_st (.int 101) c1_doc true = .ok c1_st2 ∧
    c1_st2.docs =
      [] ++ applySet [("_id", .objId "a"), ("id", .int 101), ("photos", .arr [.str "p.jpg"])] c1_doc :: [] :=
  ⟨by decide, by decide, rfl,
    (C1_amended c1_st (.int 101) c1_doc []
      [] [("_id", .objId "a"), ("id", .int 101), ("photos", .arr [.str "p.jpg"])]
      (by decide) (by decide)).1 c1_st2 rfl⟩

theorem pyIndex_eq_ok (d : Doc) (k : String) (v : BVal) :
    pyIndex d k = .ok v ↔ dGet d k = some v := by
  unfold pyIndex
  cases dGet d k <;> simp

/-- Helper: a successful per-record transformation determines the exact shape
of the built document and the required source fields. -/
theorem build_ok_shape (dec : String → List (Rat × Rat)) (r d : Doc)
    (h : build_activity_document_with dec r = .ok d) :
    ∃ (m : Doc) (dp : BVal) (idVal nameVal typeVal : BVal) (sd sdl : PyDateTime),
      get_map_data r = .ok m ∧
      decode_polyline_field dec (pyGetNull m "summary_polyline") = .ok dp ∧
      dGet r "id" = some idVal ∧
      dGet r "name" = some nameVal ∧
      dGet r "type" = some typeVal ∧
      (∃ s1, dGet r "start_date" = some s1 ∧ parse_start_date s1 = .ok sd) ∧
      (∃ s2, dGet r "start_date_local" = some s2 ∧ parse_start_date_local s2 = .ok sdl) ∧
      d = [("id", idVal), ("name", nameVal), ("type", typeVal),
           ("distance", pyGetNull r "distance"),
           ("moving_time", pyGetNull r "moving_time"),
           ("elapsed_time", pyGetNull r "elapsed_time"),
           ("total_elevation_gain", pyGetNull r "total_elevation_gain"),
           ("sport_type", pyGetNull r "sport_type"),
           ("start_date", .dt sd),
           ("start_date_local", .dt sdl),
           ("timezone", pyGetNull r "timezone"),
           ("map", .doc m),
           ("polyline", pyGetNull m "summary_polyline"),
           ("decoded_polyline", dp),
           ("gear", pyGetNull r "gear"),
           ("average_speed", pyGetNull r "average_speed"),
           ("max_speed", pyGetNull r "max_speed"),
           ("average_cadence", pyGetNull r "average_cadence"),
           ("average_heartrate", pyGetNull r "average_heartrate"),
           ("max_heartrate", pyGetNull r "max_heartrate"),
           ("calories", pyGetNull r "calories"),
           ("raw_data", .doc r)] := by
  unfold build_activity_document_with at h
  cases hm : get_map_data r with
  | error e => simp [hm, Bind.bind, Except.bind] at h
  | ok m =>
  simp only [hm, Bind.bind, Except.bind] at h
  cases hdp : decode_polyline_field dec (pyGetNull m "summary_polyline") with
  | error e => simp [hdp] at h
  | ok dp =>
  cases hid : pyIndex r "id" with
  | error e => simp [hdp, hid] at h
  | ok idVal =>
  cases hname : pyIndex r "name" with
  | error e => simp [hdp, hid, hname] at h
  | ok nameVal =>
  cases hty : pyIndex r "type" with
  | error e => simp [hdp, hid, hname, hty] at h
  | ok typeVal =>
  cases hsdr : pyIndex r "start_date" with
  | error e => simp [hdp, hid, hname, hty, hsdr] at h
  | ok sdRaw =>
  cases hsd : parse_start_date sdRaw with
  | error e => simp [hdp, hid, hname, hty, hsdr, hsd] at h
  | ok sd =>
  cases hsdlr : pyIndex r "start_date_local" with
  | error e => simp [hdp, hid, hname, hty, hsdr, hsd, hsdlr] at h
  | ok sdlRaw =>
  cases hsdl : parse_start_date_local sdlRaw with
  | error e => simp [hdp, hid, hname, hty, hsdr, hsd, hsdlr, hsdl] at h
  | ok sdl =>
  simp only [hdp, hid, hname, hty, hsdr, hsd, hsdlr, hsdl, Except.ok.injEq] at h
  refine ⟨m, dp, idVal, nameVal, typeVal, sd, sdl, rfl, hdp,
    (pyIndex_eq_ok r "id" idVal).mp hid,
    (pyIndex_eq_ok r "name" nameVal).mp hname,
    (pyIndex_eq_ok r "type" typeVal).mp hty,
    ⟨sdRaw, (pyIndex_eq_ok r "start_date" sdRaw).mp hsdr, hsd⟩,
    ⟨sdlRaw, (pyIndex_eq_ok r "start_date_local" sdlRaw).mp hsdlr, hsdl⟩,
    h.symm⟩

/-- The fixed field set of every document `save_activities_to_db` builds. -/
def activity_doc_keys : List String :=
  ["id", "name", "type", "distance", "moving_time", "elapsed_time",
   "total_elevation_gain", "sport_type", "start_date", "start_date_local",
   "timezone", "map", "polyline", "decoded_polyline", "gear", "average_speed",
   "max_speed", "average_cadence", "average_heartrate", "max_heartrate",
   "calories", "raw_data"]

theorem build_keys (dec : String → List (Rat × Rat)) (r d : Doc)
    (h : build_activity_document_with dec r = .ok d) :
    dKeys d = activity_doc_keys := by
  obtain ⟨m, dp, idVal, nameVal, typeVal, sd, sdl, _, _, _, _, _, _, _, hd⟩ :=
    build_ok_shape dec r d h
  subst hd
  rfl

theorem build_id (dec : String → List (Rat × Rat)) (r d : Doc)
    (h : build_activity_document_with dec r = .ok d) :
    dGet d "id" = dGet r "id" := by
  obtain ⟨m, dp, idVal, nameVal, typeVal, sd, sdl, _, _, hid, _, _, _, _, hd⟩ :=
    build_ok_shape dec r d h
  subst hd
  rw [hid]
  rfl

theorem sameId_false_of_id_ne (nd x : Doc) (v : BVal)
    (hnd : dGet nd "id" = some v) (hx : matches_id v x = false) : sameId nd x = false := by
  unfold sameId
  rw [hnd]
  unfold matches_id at hx
  cases hg : dGet x "id" with
  | none => rfl
  | some y =>
      simp only [decide_eq_false_iff_not] at hx ⊢
      intro he
      exact hx (hg.trans (by rw [he]))

theorem find_append_of_none (p : Doc → Bool) (l1 l2 : List Doc)
    (h : ∀ x ∈ l1, p x = false) : (l1 ++ l2).find? p = l2.find? p := by
  induction l1 with
  | nil => simp
  | cons a as ih =>
      have ha : p a = false := h a (by simp)
      simp only [List.cons_append, List.find?]
      rw [ha]
      exact ih (fun x hx => h x (by simp [hx]))

/-- Claim C4: for every external id and every two sync-built activity
documents carrying that id, upserting the first and then the second into a
collection that does not yet hold that id leaves the collection with exactly
one document for that id, and that document carries the second upsert's field
values (insert-or-replace idempotence: the re-synced activity overwrote its
prior document in place rather than duplicating). -/
theorem C4_upsert_idempotent (r1 r2 d1 d2 : Doc) (v : BVal) (st : Store)
    (h1 : build_activity_document r1 = .ok d1)
    (h2 : build_activity_document r2 = .ok d2)
    (hid1 : dGet r1 "id" = some v)
    (hid2 : dGet r2 "id" = some v)
    (hst : ∀ x ∈ st.docs, matches_id v x = false) :
    ∃ st2, save_activities_to_db [r1, r2] st = .ok st2 ∧
      st2.docs.countP (matches_id v) = 1 ∧
      ∃ dres, find_one_by_id st2 v = some dres ∧
        ∀ k v2, dGet d2 k = some v2 → dGet dres k = some v2 := by
  have hnod1 : (dKeys d1).Nodup := by
    rw [build_keys polyline_decode r1 d1 h1]
    decide
  have hnod2 : (dKeys d2).Nodup := by
    rw [build_keys polyline_decode r2 d2 h2]
    decide
  have hd1id : dGet d1 "id" = some v := (build_id polyline_decode r1 d1 h1).trans hid1
  have hd2id : dGet d2 "id" = some v := (build_id polyline_decode r2 d2 h2).trans hid2
  -- the document inserted by the first upsert
  set nd1 : Doc := ("_id", BVal.objId (padNum 24 st.nextOid)) :: applySet [("id", v)] d1 with hnd1_def
  have hnd1id : dGet nd1 "id" = some v := by
    rw [hnd1_def]
    show dGet (("_id", BVal.objId (padNum 24 st.nextOid)) :: applySet [("id", v)] d1) "id" =
      some v
    rw [dGet, if_neg (by decide)]
    exact dGet_applySet_of_mem _ d1 "id" v hnod1 hd1id
  have hsplit1 : splitAtFirst (matches_id v) st.docs = none :=
    (splitAtFirst_eq_none _ _).mpr hst
  have hany1 : st.docs.any (sameId nd1) = false := by
    rw [List.any_eq_false]
    intro x hx
    simp [sameId_false_of_id_ne nd1 x v hnd1id (hst x hx)]
  have hu1 : update_one_set_by_id st v d1 true =
      .ok ⟨st.docs ++ [nd1], st.nextOid + 1⟩ := by
    simp only [update_one_set_by_id, hsplit1, if_pos trivial]
    rw [← hnd1_def]
    rw [hany1]
    simp
  -- second upsert: replaces nd1 in place
  set merged : Doc := applySet nd1 d2 with hmerged_def
  have hmid : dGet merged "id" = some v := by
    rw [hmerged_def]
    exact dGet_applySet_of_mem nd1 d2 "id" v hnod2 hd2id
  have hsplit2 : splitAtFirst (matches_id v) (st.docs ++ [nd1]) =
      some (st.docs, nd1, []) := by
    apply splitAtFirst_construct
    · exact hst
    · simp [matches_id, hnd1id]
  have hany2 : (st.docs ++ []).any (sameId merged) = false := by
    rw [List.any_eq_false]
    intro x hx
    simp only [List.append_nil] at hx
    simp [sameId_false_of_id_ne merged x v hmid (hst x hx)]
  have hu2 : update_one_set_by_id ⟨st.docs ++ [nd1], st.nextOid + 1⟩ v d2 true =
      .ok ⟨st.docs ++ [merged], st.nextOid + 1⟩ := by
    simp only [update_one_set_by_id, hsplit2]
    rw [← hmerged_def, hany2]
    simp
  have hv1 : pyGetNull r1 "id" = v := by simp [pyGetNull, hid1]
  have hv2 : pyGetNull r2 "id" = v := by simp [pyGetNull, hid2]
  refine ⟨⟨st.docs ++ [merged], st.nextOid + 1⟩, ?_, ?_, ?_⟩
  · simp only [save_activities_to_db, h1, h2, hv1, hv2, hu1, hu2]
  · rw [List.countP_append]
    have hz : st.docs.countP (matches_id v) = 0 := by
      rw [List.countP_eq_zero]
      intro x hx
      simp [hst x hx]
    rw [hz]
    simp [List.countP, List.countP.go, matches_id, hmid]
  · refine ⟨merged, ?_, ?_⟩
    · show (st.docs ++ [merged]).find? (matches_id v) = some merged
      rw [find_append_of_none _ _ _ hst]
      simp [List.find?, matches_id, hmid]
    · intro k v2 hk
      rw [hmerged_def]
      exact dGet_applySet_of_mem nd1 d2 k v2 hnod2 hk

/-- First upstream record for the C4 witness (external id 7). -/
def c4_r1 : Doc :=
  [("id", .int 7), ("name", .str "Morning Run"), ("type", .str "Run"),
   ("start_date", .str "2024-03-01T06:00:00Z"),
   ("start_date_local", .str "2024-03-01T07:00:00+01:00")]

/-- Second upstream record for the C4 witness: same id, different values. -/
def c4_r2 : Doc :=
  [("id", .int 7), ("name", .str "Evening Run"), ("type", .str "Run"),
   ("distance", .num 5000),
   ("start_date", .str "2024-03-01T18:00:00Z"),
   ("start_date_local", .str "2024-03-01T19:00:00+01:00")]

/-- Document built from the first C4 record. -/
def c4_d1 : Doc := (build_activity_document c4_r1).toOption.getD []

/-- Document built from the second C4 record. -/
def c4_d2 : Doc := (build_activity_document c4_r2).toOption.getD []

/-- Witness for C4: upserting id 7 twice into the empty collection leaves one
matching document carrying the second document's values. -/
theorem C4_upsert_idempotent_witness :
    build_activity_document c4_r1 = .ok c4_d1 ∧
    ∃ st2, save_activities_to_db [c4_r1, c4_r2] ⟨[], 0⟩ = .ok st2 ∧
      st2.docs.countP (matches_id (.int 7)) = 1 ∧
      ∃ dres, find_one_by_id st2 (.int 7) = some dres ∧
        ∀ k v2, dGet c4_d2 k = some v2 → dGet dres k = some v2 :=
  ⟨rfl, C4_upsert_idempotent c4_r1 c4_r2 c4_d1 c4_d2 (.int 7) ⟨[], 0⟩ rfl rfl rfl rfl
    (fun x hx => absurd hx (List.not_mem_nil x))⟩

theorem decode_polyline_field_empty (dec : String → List (Rat × Rat)) (pd : BVal)
    (h : pd = .null ∨ pd = .str "") : decode_polyline_field dec pd = .ok .null := by
  rcases h with h | h <;> subst h <;> simp [decode_polyline_field, truthy]

/-- Helper: converse of `build_ok_shape` — field-level conditions determine
the transformation's result document. -/
theorem build_computes (dec : String → List (Rat × Rat)) (r m : Doc) (dp : BVal)
    (idVal nameVal typeVal sdv sdlv : BVal) (sdt sdlt : PyDateTime)
    (hm : get_map_data r = .ok m)
    (hdp : decode_polyline_field dec (pyGetNull m "summary_polyline") = .ok dp)
    (hid : dGet r "id" = some idVal)
    (hname : dGet r "name" = some nameVal)
    (hty : dGet r "type" = some typeVal)
    (hsdv : dGet r "start_date" = some sdv) (hsd : parse_start_date sdv = .ok sdt)
    (hsdlv : dGet r "start_date_local" = some sdlv)
    (hsdl : parse_start_date_local sdlv = .ok sdlt) :
    build_activity_document_with dec r =
      .ok [("id", idVal), ("name", nameVal), ("type", typeVal),
           ("distance", pyGetNull r "distance"),
           ("moving_time", pyGetNull r "moving_time"),
           ("elapsed_time", pyGetNull r "elapsed_time"),
           ("total_elevation_gain", pyGetNull r "total_elevation_gain"),
           ("sport_type", pyGetNull r "sport_type"),
           ("start_date", .dt sdt),
           ("start_date_local", .dt sdlt),
           ("timezone", pyGetNull r "timezone"),
           ("map", .doc m),
           ("polyline", pyGetNull m "summary_polyline"),
           ("decoded_polyline", dp),
           ("gear", pyGetNull r "gear"),
           ("average_speed", pyGetNull r "average_speed"),
           ("max_speed", pyGetNull r "max_speed"),
           ("average_cadence", pyGetNull r "average_cadence"),
           ("average_heartrate", pyGetNull r "average_heartrate"),
           ("max_heartrate", pyGetNull r "max_heartrate"),
           ("calories", pyGetNull r "calories"),
           ("raw_data", .doc r)] := by
  simp only [build_activity_document_with, Bind.bind, Except.bind, hm, hdp, pyIndex,
    hid, hname, hty, hsdv, hsd, hsdlv, hsdl]

/-- Helper: saving one buildable record whose id is not yet in the collection
appends exactly one document. -/
theorem save_single_insert (r d : Doc) (v : BVal) (st : Store)
    (h1 : build_activity_document r = .ok d)
    (hid : dGet r "id" = some v)
    (hst : ∀ x ∈ st.docs, matches_id v x = false) :
    save_activities_to_db [r] st =
      .ok ⟨st.docs ++ [("_id", BVal.objId (padNum 24 st.nextOid)) :: applySet [("id", v)] d],
        st.nextOid + 1⟩ := by
  have hnod : (dKeys d).Nodup := by
    rw [build_keys polyline_decode r d h1]
    decide
  have hdid : dGet d "id" = some v := (build_id polyline_decode r d h1).trans hid
  set nd1 : Doc := ("_id", BVal.objId (padNum 24 st.nextOid)) :: applySet [("id", v)] d
    with hnd1_def
  have hnd1id : dGet nd1 "id" = some v := by
    rw [hnd1_def]
    show dGet (("_id", BVal.objId (padNum 24 st.nextOid)) :: applySet [("id", v)] d) "id" =
      some v
    rw [dGet, if_neg (by decide)]
    exact dGet_applySet_of_mem _ d "id" v hnod hdid
  have hsplit : splitAtFirst (matches_id v) st.docs = none :=
    (splitAtFirst_eq_none _ _).mpr hst
  have hany : st.docs.any (sameId nd1) = false := by
    rw [List.any_eq_false]
    intro x hx
    simp [sameId_false_of_id_ne nd1 x v hnd1id (hst x hx)]
  have hv : pyGetNull r "id" = v := by simp [pyGetNull, hid]
  have hu : update_one_set_by_id st v d true = .ok ⟨st.docs ++ [nd1], st.nextOid + 1⟩ := by
    simp only [update_one_set_by_id, hsplit, if_pos trivial]
    rw [← hnd1_def, hany]
    simp
  simp only [save_activities_to_db, h1, hv, hu]

/-- Claim C9: in the sync's per-record transformation, an empty or null (or
absent) encoded polyline string yields a null decoded geometry and the record
is still processed and stored, not an error; decoding is only attempted when
the encoded string is present and non-empty (the built document does not
depend on the decoder at all on such records). -/
theorem C9_empty_polyline (r m : Doc) (vid nameVal typeVal sdv sdlv : BVal)
    (sdt sdlt : PyDateTime)
    (hm : get_map_data r = .ok m)
    (hp : dGet m "summary_polyline" = none ∨ dGet m "summary_polyline" = some .null ∨
          dGet m "summary_polyline" = some (.str ""))
    (hid : dGet r "id" = some vid)
    (hname : dGet r "name" = some nameVal)
    (hty : dGet r "type" = some typeVal)
    (hsdv : dGet r "start_date" = some sdv) (hsd : parse_start_date sdv = .ok sdt)
    (hsdlv : dGet r "start_date_local" = some sdlv)
    (hsdl : parse_start_date_local sdlv = .ok sdlt) :
    (∀ dec, build_activity_document_with dec r = build_activity_document r) ∧
    ∃ d, build_activity_document r = .ok d ∧
      dGet d "decoded_polyline" = some .null ∧
      ∀ st : Store, (∀ x ∈ st.docs, matches_id vid x = false) →
        ∃ st2, save_activities_to_db [r] st = .ok st2 ∧
          st2.docs.length = st.docs.length + 1 := by
  have hpd : pyGetNull m "summary_polyline" = .null ∨ pyGetNull m "summary_polyline" = .str "" := by
    rcases hp with h | h | h <;> simp [pyGetNull, h]
  have hdpf : ∀ dec, decode_polyline_field dec (pyGetNull m "summary_polyline") = .ok .null :=
    fun dec => decode_polyline_field_empty dec _ hpd
  have key : ∀ dec, build_activity_document_with dec r =
      .ok [("id", vid), ("name", nameVal), ("type", typeVal),
           ("distance", pyGetNull r "distance"),
           ("moving_time", pyGetNull r "moving_time"),
           ("elapsed_time", pyGetNull r "elapsed_time"),
           ("total_elevation_gain", pyGetNull r "total_elevation_gain"),
           ("sport_type", pyGetNull r "sport_type"),
           ("start_date", .dt sdt),
           ("start_date_local", .dt sdlt),
           ("timezone", pyGetNull r "timezone"),
           ("map", .doc m),
           ("polyline", pyGetNull m "summary_polyline"),
           ("decoded_polyline", .null),
           ("gear", pyGetNull r "gear"),
           ("average_speed", pyGetNull r "average_speed"),
           ("max_speed", pyGetNull r "max_speed"),
           ("average_cadence", pyGetNull r "average_cadence"),
           ("average_heartrate", pyGetNull r "average_heartrate"),
           ("max_heartrate", pyGetNull r "max_heartrate"),
           ("calories", pyGetNull r "calories"),
           ("raw_data", .doc r)] :=
    fun dec => build_computes dec r m .null vid nameVal typeVal sdv sdlv sdt sdlt
      hm (hdpf dec) hid hname hty hsdv hsd hsdlv hsdl
  refine ⟨fun dec => (key dec).trans (key polyline_decode).symm, ?_⟩
  refine ⟨_, key polyline_decode, ?_, ?_⟩
  · simp [dGet]
  · intro st hst
    refine ⟨_, save_single_insert r _ vid st (key polyline_decode) hid hst, ?_⟩
    simp

/-- Record for the C9 witness: its map carries an empty `summary_polyline`. -/
def c9_r : Doc :=
  [("id", .int 11), ("name", .str "Walk"), ("type", .str "Walk"),
   ("map", .doc [("id", .str "m11"), ("summary_polyline", .str "")]),
   ("start_date", .str "2024-05-05T08:00:00Z"),
   ("start_date_local", .str "2024-05-05T08:00:00Z")]

/-- The C9 witness record's map data. -/
def c9_m : Doc := [("id", .str "m11"), ("summary_polyline", .str "")]

/-- Witness for C9: the empty-polyline record builds decoder-independently,
stores a null decoded geometry, and is saved. -/
theorem C9_empty_polyline_witness :
    (∀ dec, build_activity_document_with dec c9_r = build_activity_document c9_r) ∧
    ∃ d, build_activity_document c9_r = .ok d ∧
      dGet d "decoded_polyline" = some .null ∧
      ∀ st : Store, (∀ x ∈ st.docs, matches_id (.int 11) x = false) →
        ∃ st2, save_activities_to_db [c9_r] st = .ok st2 ∧
          st2.docs.length = st.docs.length + 1 :=
  C9_empty_polyline c9_r c9_m (.int 11) (.str "Walk") (.str "Walk")
    (.str "2024-05-05T08:00:00Z") (.str "2024-05-05T08:00:00Z")
    ⟨2024, 5, 5, 8, 0, 0, none⟩ ⟨2024, 5, 5, 8, 0, 0, some 0⟩
    rfl (Or.inr (Or.inr (by decide))) rfl rfl rfl rfl rfl rfl rfl

/-- Record for C3 that fails transformation and has no `id` field. -/
def c3_bad : Doc := [("name", .str "Malformed")]

/-- Valid record for C3 (external id 42). -/
def c3_good : Doc :=
  [("id", .int 42), ("name", .str "Run"), ("type", .str "Run"),
   ("start_date", .str "2024-04-01T06:00:00Z"),
   ("start_date_local", .str "2024-04-01T08:00:00+02:00")]

/-- Store after saving the skip-case list of C3. -/
def c3_skip_st : Store :=
  match save_activities_to_db [[("id", .int 5)], c3_good] ⟨[], 0⟩ with
  | .ok s => s
  | .error _ => ⟨[], 0⟩

/-- Store after saving the good record alone for C3. -/
def c3_good_st : Store :=
  match save_activities_to_db [c3_good] ⟨[], 0⟩ with
  | .ok s => s
  | .error _ => ⟨[], 0⟩

/-- Claim C3, evaluated at the failing input: a record whose transformation
fails and which has an `id` field is indeed logged, skipped and processing
continues (third and fourth conjuncts), but a record missing the `id` field
makes the `except` handler's own `activity['id']` raise — the save loop
aborts and the remaining (valid) record of the list is never stored (second
conjunct), contradicting the claim that no per-record failure aborts the
page. -/
theorem C3_handler_abort :
    build_activity_document c3_bad = .error (.keyError "id") ∧
    save_activities_to_db [c3_bad, c3_good] ⟨[], 0⟩ = .error .handlerKeyError ∧
    save_activities_to_db [[("id", .int 5)], c3_good] ⟨[], 0⟩ = .ok c3_skip_st ∧
    c3_skip_st.docs.length = 1 ∧
    save_activities_to_db [c3_good] ⟨[], 0⟩ = .ok c3_good_st ∧
    c3_good_st.docs.length = 1 :=
  ⟨rfl, rfl, rfl, rfl, rfl, rfl⟩

theorem dGet_popKey_self (d : Doc) (k : String) : dGet (popKey d k) k = none := by
  induction d with
  | nil => rfl
  | cons e rest ih =>
      obtain ⟨k1, v1⟩ := e
      by_cases h : k1 = k
      · simpa [popKey, List.filter, h] using ih
      · simpa [popKey, List.filter, h, dGet] using ih

/-- Helper: with `include_polyline=false` the shaped response document never
carries a `decoded_polyline` field. -/
theorem shape_no_polyline (d : Doc) :
    dGet (shape_activity false d) "decoded_polyline" = none := by
  simp [shape_activity, dGet_popKey_self]

/-- Claim C8: for the list endpoint, `offset` skips that many documents in
the store's natural order and `limit` caps the count (`limit` unset returns
all), and the decoded-geometry field is omitted from every returned document
unless the boolean flag requests it; in particular a request with `limit=2`,
`offset=1`, `include_polyline=false` against a 5-document collection returns
exactly documents 2 and 3 in natural order, each missing `decoded_polyline`. -/
theorem C8_list_endpoint (st : Store) :
    (∀ offset inc, get_activities st none offset inc =
      (st.docs.drop offset).map (shape_activity inc)) ∧
    (∀ l offset inc, get_activities st (some l) offset inc =
      ((st.docs.drop offset).take l).map (shape_activity inc) ∧
      (get_activities st (some l) offset inc).length ≤ l) ∧
    (∀ limit offset d, d ∈ get_activities st limit offset false →
      dGet d "decoded_polyline" = none) ∧
    (∀ d1 d2 d3 d4 d5, st.docs = [d1, d2, d3, d4, d5] →
      get_activities st (some 2) 1 false =
        [shape_activity false d2, shape_activity false d3] ∧
      dGet (shape_activity false d2) "decoded_polyline" = none ∧
      dGet (shape_activity false d3) "decoded_polyline" = none) := by
  refine ⟨fun offset inc => rfl, ?_, ?_, ?_⟩
  · intro l offset inc
    refine ⟨rfl, ?_⟩
    show (((st.docs.drop offset).take l).map (shape_activity inc)).length ≤ l
    rw [List.length_map, List.length_take]
    exact min_le_left l _
  · intro limit offset d hd
    cases limit with
    | none =>
        obtain ⟨x, _, hx⟩ := List.mem_map.mp hd
        rw [← hx]
        exact shape_no_polyline x
    | some l =>
        obtain ⟨x, _, hx⟩ := List.mem_map.mp hd
        rw [← hx]
        exact shape_no_polyline x
  · intro d1 d2 d3 d4 d5 hdocs
    refine ⟨?_, shape_no_polyline d2, shape_no_polyline d3⟩
    simp [get_activities, hdocs]

/-- Five-document store for the C8 witness. -/
def c8_st : Store :=
  ⟨[[("_id", .objId "1"), ("id", .int 1), ("decoded_polyline", .arr [])],
    [("_id", .objId "2"), ("id", .int 2), ("decoded_polyline", .arr [])],
    [("_id", .objId "3"), ("id", .int 3), ("decoded_polyline", .arr [])],
    [("_id", .objId "4"), ("id", .int 4), ("decoded_polyline", .arr [])],
    [("_id", .objId "5"), ("id", .int 5), ("decoded_polyline", .arr [])]], 5⟩

/-- Witness for C8: the example request on the concrete 5-document store. -/
theorem C8_list_endpoint_witness :
    get_activities c8_st (some 2) 1 false =
      [shape_activity false [("_id", .objId "2"), ("id", .int 2), ("decoded_polyline", .arr [])],
       shape_activity false [("_id", .objId "3"), ("id", .int 3), ("decoded_polyline", .arr [])]] ∧
    dGet (shape_activity false
      [("_id", .objId "2"), ("id", .int 2), ("decoded_polyline", .arr [])]) "decoded_polyline" = none :=
  ⟨((C8_list_endpoint c8_st).2.2.2 _ _ _ _ _ rfl).1,
   ((C8_list_endpoint c8_st).2.2.2 _ _ _ _ _ rfl).2.1⟩

